import Mathlib

/-!
Shallow embedding of `ComfyUI-Folder-Images-Preview` (`__init__.py`,
class `FolderImagesPreview`), the contact-sheet renderer for a folder of
images.  The filesystem (directory check, `os.listdir`, `os.walk`), the
font measurement, the image decoder and the clock are external
collaborators; they enter as an explicit `Env` record and the captured
timestamp string.  Machine arithmetic is modelled with `Nat`/`Int`;
Python's `int(...)` truncation of the non-negative ratio
`dim * (256 / other)` is modelled as exact floor division.
-/

/-- RGB triple as produced by the hex-colour conversion.  Components are
`Int` because Python's `int(s, 16)` also accepts a sign. -/
abbrev RGB := Int × Int × Int

/-- A discovered image file: (owning directory, file name), as built by
the list comprehensions on lines 50 and 54 of the source. -/
abbrev ImageItem := String × String

/-- `supported_formats` (source line 28). -/
def supported_formats : List String :=
  [".png", ".jpg", ".jpeg", ".gif", ".tiff", ".webp", ".bmp"]

/-- `f.lower().endswith(supported_formats)` (source lines 50 and 56);
`str.lower` on the ASCII range is `Char.toLower` applied characterwise,
and `endswith` with a tuple is satisfied by any one suffix. -/
def isSupportedName (f : String) : Bool :=
  supported_formats.any (fun ext => ext.toList.isSuffixOf (f.toList.map Char.toLower))

/-- Value of one hexadecimal digit, the digits `int(s, 16)` accepts. -/
def hexVal (c : Char) : Option Nat :=
  if '0' ≤ c ∧ c ≤ '9' then some (c.toNat - '0'.toNat)
  else if 'a' ≤ c ∧ c ≤ 'f' then some (c.toNat - 'a'.toNat + 10)
  else if 'A' ≤ c ∧ c ≤ 'F' then some (c.toNat - 'A'.toNat + 10)
  else none

/-- Accumulate the value of a run of hex digits; `none` as soon as a
character is not a hex digit (Python raises `ValueError` there). -/
def hexNatVal : List Char → Nat → Option Nat
  | [], acc => some acc
  | c :: cs, acc =>
    match hexVal c with
    | none => none
    | some v => hexNatVal cs (16 * acc + v)

/-- Digit-run parse: `int("", 16)` raises, so the empty run is `none`. -/
def hexNat : List Char → Option Nat
  | [] => none
  | c :: cs => hexNatVal (c :: cs) 0

/-- Python's default `str.strip` whitespace, restricted to ASCII. -/
def pyWS (c : Char) : Bool :=
  c = ' ' ∨ c = '\t' ∨ c = '\n' ∨ c = '\r' ∨ c = '\x0b' ∨ c = '\x0c'

/-- Strip `pyWS` characters from both ends. -/
def pyStrip (cs : List Char) : List Char :=
  ((cs.dropWhile pyWS).reverse.dropWhile pyWS).reverse

/-- Embedding of Python `int(s, 16)` for the slice strings the colour
conversion produces (length at most 2, so the `0x` prefix and digit
underscores of the full grammar cannot occur): optional surrounding
whitespace, an optional sign, then a non-empty run of hex digits. -/
def pyIntHex (cs : List Char) : Option Int :=
  match pyStrip cs with
  | [] => none
  | c :: rest =>
    if c = '+' then (hexNat rest).map Int.ofNat
    else if c = '-' then (hexNat rest).map (fun n => -(n : Int))
    else (hexNat (c :: rest)).map Int.ofNat

/-- Python slice `s[i:i+2]`. -/
def pySlice2 (cs : List Char) (i : Nat) : List Char :=
  (cs.drop i).take 2

/-- `tuple(int(color.lstrip('#')[i:i+2], 16) for i in (0, 2, 4))`
(source lines 41-42): strip every leading `#`, take the three
two-character slices, parse each as hex; any slice failure is the
`ValueError` of line 43, modelled as `none`. -/
def parseHexColor (color : String) : Option RGB :=
  let cs := color.toList.dropWhile (fun c => c = '#')
  match pyIntHex (pySlice2 cs 0), pyIntHex (pySlice2 cs 2), pyIntHex (pySlice2 cs 4) with
  | some r, some g, some b => some (r, g, b)
  | _, _, _ => none

/-- Layout constants (source lines 61-67). -/
def thumbnail_size : Nat := 256

def text_height : Nat := 60

def grid_spacing : Nat := 48

def stats_height : Nat := 40

def footer_height : Nat := 40

def subfolder_title_height : Nat := 40

def line_thickness : Nat := 2

/-- Aspect-preserving scale of a `w × h` source so the longer edge
becomes `thumbnail_size` (source lines 152-158); `int(...)` of the
non-negative product is floor division. -/
def thumbDims (w h : Nat) : Nat × Nat :=
  if h < w then (thumbnail_size, h * thumbnail_size / w)
  else (w * thumbnail_size / h, thumbnail_size)

/-- The 256x256 thumbnail buffer of source lines 159-172, described by
its geometry: the scaled size, the paste offset onto the 256x256 canvas
filled with the text colour, and whether the crop branch ran. -/
structure Thumb where
  src : String
  newW : Nat
  newH : Nat
  pasteX : Nat
  pasteY : Nat
  cropped : Bool
  fill : RGB
deriving DecidableEq

/-- Source lines 152-172: scale, then either crop symmetrically (when a
scaled dimension exceeds 256) or centre on the fill-colour canvas. -/
def makeThumb (src : String) (fill : RGB) (w h : Nat) : Thumb :=
  let nw := (thumbDims w h).1
  let nh := (thumbDims w h).2
  if thumbnail_size < nw ∨ thumbnail_size < nh then
    { src := src, newW := nw, newH := nh, pasteX := 0, pasteY := 0,
      cropped := true, fill := fill }
  else
    { src := src, newW := nw, newH := nh,
      pasteX := (thumbnail_size - nw) / 2, pasteY := (thumbnail_size - nh) / 2,
      cropped := false, fill := fill }

/-- One step of the `wrap_text` loop (source lines 229-238): extend the
current line when the measured width of the test line still fits,
otherwise close it and start a new line with this character.  The state
is (closed lines, current line). -/
def wrapStep (widthOf : String → Nat) (maxWidth : Nat)
    (st : List String × String) (c : Char) : List String × String :=
  let test := st.2.push c
  if widthOf test ≤ maxWidth then (st.1, test) else (st.1 ++ [st.2], String.singleton c)

/-- `wrap_text` (source lines 224-243): greedy character-by-character
accumulation against the measured width; the trailing line is kept
only when non-empty (Python truthiness of `current_line`). -/
def wrap_text (widthOf : String → Nat) (text : String) (maxWidth : Nat) : List String :=
  let fin := text.toList.foldl (wrapStep widthOf maxWidth) ([], "")
  if fin.2 = "" then fin.1 else fin.1 ++ [fin.2]

/-- Python `s.rstrip(".")`, as called with the argument `"..."` on
source line 196: removes every trailing `.` character. -/
def pyRstripDots (s : String) : String :=
  ⟨(s.toList.reverse.dropWhile (fun c => c = '.')).reverse⟩

/-- Source lines 194-196: when the wrap produced more than two lines,
keep the first two and replace the second by its dot-stripped form plus
a single ellipsis. -/
def truncCaption : List String → List String
  | a :: b :: _ :: _ => [a, pyRstripDots b ++ "..."]
  | l => l

/-- Stats header (source lines 107-112). -/
def statsText (total : Nat) : String :=
  if total = 0 then "Not found any image"
  else if total = 1 then "Found 1 image"
  else "Found " ++ toString total ++ " images"

/-- The eligible files of one walked directory, as the comprehension of
source line 50 builds them. -/
def dirSection (entry : String × List String) : List ImageItem :=
  (entry.2.filter isSupportedName).map (fun f => (entry.1, f))

/-- Recursive discovery (source lines 48-52): one section per walked
directory that holds at least one eligible file, in the walk's order.
`os.walk` itself is the external filesystem collaborator; its top-down
output snapshot is the input list. -/
def walkSections (walkOutput : List (String × List String)) : List (List ImageItem) :=
  walkOutput.filterMap (fun entry =>
    let subfolder_images := dirSection entry
    if subfolder_images.isEmpty then none else some subfolder_images)

/-- Non-recursive discovery (source lines 54-56): the files directly in
the root, filtered to regular files with supported suffixes.  The
listing snapshot pairs each name with its `os.path.isfile` answer. -/
def flatSection (folder_path : String) (listing : List (String × Bool)) : List ImageItem :=
  (listing.filter (fun e => e.2 && isSupportedName e.1)).map (fun e => (folder_path, e.1))

/-- `total_images` (source line 58). -/
def total_images (image_files : List (List ImageItem)) : Nat :=
  (image_files.map List.length).sum

/-- `output_width` (source line 70). -/
def output_width (images_per_row : Nat) : Nat :=
  images_per_row * thumbnail_size + (images_per_row + 1) * grid_spacing

/-- Canvas height (source lines 71-93). -/
def output_height (include_subfolders : Bool) (images_per_row : Nat)
    (image_files : List (List ImageItem)) : Nat :=
  if total_images image_files = 0 then
    grid_spacing + stats_height + grid_spacing + line_thickness + grid_spacing +
      grid_spacing + line_thickness + footer_height + grid_spacing
  else if include_subfolders then
    let rows := (image_files.map
      (fun s => (s.length + images_per_row - 1) / images_per_row)).sum
    grid_spacing + stats_height + grid_spacing + line_thickness + grid_spacing +
      image_files.length * (subfolder_title_height + grid_spacing) +
      rows * (thumbnail_size + text_height + grid_spacing) +
      grid_spacing + line_thickness + footer_height + grid_spacing
  else
    let rows := (total_images image_files + images_per_row - 1) / images_per_row
    grid_spacing + stats_height + grid_spacing + line_thickness + grid_spacing +
      rows * (thumbnail_size + text_height + grid_spacing) +
      grid_spacing + line_thickness + footer_height + grid_spacing

/-- One drawing primitive applied to the output canvas: `draw.text`,
`draw.rectangle`, or `output_image.paste` of a thumbnail.  Text ops
record the font size (20 body / 24 stats, source lines 101-102). -/
inductive DrawOp where
  | text (pos : Nat × Nat) (s : String) (color : RGB) (fontSize : Nat)
  | rect (topLeft : Nat × Nat) (bottomRight : Nat × Nat) (color : RGB)
  | paste (pos : Nat × Nat) (thumb : Thumb)
deriving DecidableEq

/-- The output raster: fixed dimensions, the background fill of
`Image.new` (source line 96), and the drawing ops in order. -/
structure Canvas where
  width : Nat
  height : Nat
  background : RGB
  ops : List DrawOp
deriving DecidableEq

/-- The external collaborators of one render: filesystem answers
(`os.path.isdir`, the font file check, `os.listdir` with `isfile`
flags, the top-down `os.walk` snapshot), the font loader outcome, the
image decoder (`Image.open ... .size`, `none` = decode raises), and the
body-font pixel-width measure (`font.getbbox` width). -/
structure Env where
  isDir : Bool
  fontExists : Bool
  fontLoadOk : Bool
  fontPath : String
  listing : List (String × Bool)
  walkOutput : List (String × List String)
  decode : String → Option (Nat × Nat)
  textWidth : String → Nat

/-- `os.path.join` for the relative POSIX components this program
joins (never absolute, never trailing separators). -/
def pyJoin (a b : String) : String :=
  if a = "" then b else a ++ "/" ++ b

/-- `os.path.basename` for the separator-free or POSIX paths used
here: the part after the last `/`. -/
def pyBasename (p : String) : String :=
  ⟨(p.toList.reverse.takeWhile (fun c => c ≠ '/')).reverse⟩

/-- `os.path.relpath p base` for the only shapes the walk produces:
`base` itself or a path strictly below `base`. -/
def pyRelpath (p base : String) : String :=
  if p = base then "."
  else if (base ++ "/").toList.isPrefixOf p.toList then ⟨p.toList.drop (base.toList.length + 1)⟩
  else p

/-- The stem of `os.path.splitext` (CPython `genericpath._splitext`
with no directory separator present): split at the last dot unless
every character before it is also a dot. -/
def pySplitextStem (p : String) : String :=
  let cs := p.toList
  let leading := (cs.takeWhile (fun c => c = '.')).length
  let afterLast := (cs.reverse.takeWhile (fun c => c ≠ '.')).length
  if afterLast = cs.length then p
  else if leading < cs.length - afterLast - 1 then ⟨cs.take (cs.length - afterLast - 1)⟩
  else p

/-- Caption text of one item (source lines 184-189): relative path plus
stem in subfolder mode, stem alone otherwise. -/
def displayName (include_subfolders : Bool) (folder_path root image_file : String) : String :=
  if include_subfolders then
    let rel_path := if root ≠ folder_path then pyRelpath root folder_path else ""
    let filename := pySplitextStem image_file
    if rel_path ≠ "" then pyJoin rel_path filename else filename
  else
    pySplitextStem image_file

/-- Ops emitted for one successfully decoded item (source lines
181-199): the thumbnail paste, then up to two caption lines 25px
apart starting 5px below the image area. -/
def itemOps (txt_color : RGB) (widthOf : String → Nat) (display_name : String)
    (x y : Nat) (thumb : Thumb) : List DrawOp :=
  let wrapped := truncCaption (wrap_text widthOf display_name (thumbnail_size - 10))
  let text_y := y + thumbnail_size + 5
  DrawOp.paste (x, y) thumb ::
    (wrapped.take 2).enum.map (fun p => DrawOp.text (x + 5, text_y + p.1 * 25) p.2 txt_color 20)

/-- Mutable state of the drawing loop (source lines 133-134): the
vertical cursor, the running image index, and the ops so far. -/
structure LoopState where
  current_y : Nat
  image_idx : Nat
  ops : List DrawOp

/-- One iteration of the inner loop (source lines 145-205).  A decode
failure is caught: no ops, and `image_idx` does not advance.  On
success the grid cell comes from `image_idx % len(subfolder_images)`
(source lines 175-176) with the section length `sectionLen`. -/
def processItem (decode : String → Option (Nat × Nat)) (widthOf : String → Nat)
    (include_subfolders : Bool) (folder_path : String) (txt_color : RGB)
    (images_per_row sectionLen : Nat) (st : LoopState) (item : ImageItem) : LoopState :=
  let image_path := pyJoin item.1 item.2
  match decode image_path with
  | none => st
  | some wh =>
    let thumb := makeThumb image_path txt_color wh.1 wh.2
    let row := (st.image_idx % sectionLen) / images_per_row
    let col := (st.image_idx % sectionLen) % images_per_row
    let x := grid_spacing + col * (thumbnail_size + grid_spacing)
    let y := st.current_y + row * (thumbnail_size + text_height + grid_spacing)
    let dn := displayName include_subfolders folder_path item.1 item.2
    { st with
      ops := st.ops ++ itemOps txt_color widthOf dn x y thumb,
      image_idx := st.image_idx + 1 }

/-- Section title text (source lines 139-141). -/
def sectionTitleText (folder_path : String) (sec : List ImageItem) : String :=
  let subfolder_path := ((sec.head?).map Prod.fst).getD ""
  let subfolder_name :=
    if subfolder_path = folder_path then pyBasename folder_path
    else pyRelpath subfolder_path folder_path
  "- " ++ subfolder_name ++ " (" ++ toString sec.length ++ " images)"

/-- One iteration of the outer loop (source lines 136-209): optional
section title, the items, then in subfolder mode the vertical advance
by that section's row count. -/
def processSection (decode : String → Option (Nat × Nat)) (widthOf : String → Nat)
    (include_subfolders : Bool) (folder_path : String) (txt_color : RGB)
    (images_per_row : Nat) (st : LoopState) (sec : List ImageItem) : LoopState :=
  let st1 :=
    if include_subfolders = true ∧ sec ≠ [] then
      { st with
        ops := st.ops ++
          [DrawOp.text (grid_spacing, st.current_y) (sectionTitleText folder_path sec) txt_color 24],
        current_y := st.current_y + subfolder_title_height + grid_spacing }
    else st
  let st2 := sec.foldl
    (processItem decode widthOf include_subfolders folder_path txt_color images_per_row sec.length)
    st1
  if include_subfolders = true then
    { st2 with current_y := st2.current_y +
        ((sec.length + images_per_row - 1) / images_per_row) *
          (thumbnail_size + text_height + grid_spacing) }
  else st2

/-- The whole of `generate_preview` (source lines 26-222), with the
timestamp string captured on line 121 passed in as `current_time`.
Fatal paths return `Except.error` with the raised message; the success
path returns the canvas with its ops in drawing order. -/
def generate_preview (env : Env) (folder_path : String) (images_per_row : Nat)
    (include_subfolders : Bool) (background_color text_color : String)
    (current_time : String) : Except String Canvas :=
  if env.isDir = false then
    .error ("The folder path '" ++ folder_path ++ "' does not exist or is not a directory!")
  else if env.fontExists = false then
    .error ("Font file '" ++ env.fontPath ++ "' not found!")
  else
    match parseHexColor background_color, parseHexColor text_color with
    | some bg_color, some txt_color =>
      let image_files :=
        if include_subfolders then walkSections env.walkOutput
        else [flatSection folder_path env.listing]
      let ti := total_images image_files
      let w := output_width images_per_row
      let h := output_height include_subfolders images_per_row image_files
      if env.fontLoadOk = false then
        .error ("Failed to load font '" ++ env.fontPath ++ "'")
      else
        let statsOp := DrawOp.text (grid_spacing, grid_spacing) (statsText ti) txt_color 24
        let line_y_top := grid_spacing + stats_height + grid_spacing
        let topDivider := DrawOp.rect (grid_spacing, line_y_top)
          (w - grid_spacing, line_y_top + line_thickness) txt_color
        let line_y_bottom := h - footer_height - grid_spacing - line_thickness - grid_spacing
        let bottomDivider := DrawOp.rect (grid_spacing, line_y_bottom)
          (w - grid_spacing, line_y_bottom + line_thickness) txt_color
        let footerOp := DrawOp.text
          (grid_spacing, line_y_bottom + line_thickness + grid_spacing) current_time txt_color 24
        if ti = 0 then
          .ok { width := w, height := h, background := bg_color,
                ops := [statsOp, topDivider, bottomDivider, footerOp] }
        else
          let st0 : LoopState :=
            { current_y := line_y_top + line_thickness + grid_spacing, image_idx := 0, ops := [] }
          let stF := image_files.foldl
            (processSection env.decode env.textWidth include_subfolders folder_path txt_color images_per_row)
            st0
          .ok { width := w, height := h, background := bg_color,
                ops := [statsOp, topDivider] ++ stF.ops ++ [bottomDivider, footerOp] }
    | _, _ => .error "Background color or text color must be a valid HEX value, e.g., #FFFFFF"

/-- The paste operations of an op list, in order: position and pasted
source path. -/
def pastePositions (ops : List DrawOp) : List (Nat × Nat × String) :=
  ops.filterMap (fun op =>
    match op with
    | DrawOp.paste p th => some (p.1, p.2, th.src)
    | _ => none)

/-! ### Colour parsing -/

lemma hexVal_of_pyWS (c : Char) (h : pyWS c = true) : hexVal c = none := by
  have h' : c = ' ' ∨ c = '\t' ∨ c = '\n' ∨ c = '\r' ∨ c = '\x0b' ∨ c = '\x0c' := by
    simpa [pyWS] using h
  rcases h' with h' | h' | h' | h' | h' | h' <;> subst h' <;> decide

lemma pyWS_of_hexVal {c : Char} (h : hexVal c ≠ none) : pyWS c = false := by
  cases hws : pyWS c
  · rfl
  · exact absurd (hexVal_of_pyWS c hws) h

lemma dropWhile_eq_self_of_all {p : Char → Bool} {l : List Char}
    (h : ∀ c ∈ l, p c = false) : l.dropWhile p = l := by
  cases l with
  | nil => rfl
  | cons c cs => simp [List.dropWhile_cons, h c (by simp)]

lemma pyStrip_eq_self {l : List Char} (h : ∀ c ∈ l, pyWS c = false) : pyStrip l = l := by
  unfold pyStrip
  rw [dropWhile_eq_self_of_all h,
    dropWhile_eq_self_of_all (fun c hc => h c (by simpa using hc)), List.reverse_reverse]

lemma hexNatVal_ne_none {l : List Char} (h : ∀ c ∈ l, hexVal c ≠ none) :
    ∀ acc, hexNatVal l acc ≠ none := by
  induction l with
  | nil => intro acc; simp [hexNatVal]
  | cons c cs ih =>
    intro acc
    rcases hv : hexVal c with _ | v
    · exact absurd hv (h c (by simp))
    · simpa [hexNatVal, hv] using ih (fun d hd => h d (by simp [hd])) (16 * acc + v)

lemma pyIntHex_hex_ne_none {l : List Char} (hne : l ≠ [])
    (h : ∀ c ∈ l, hexVal c ≠ none) : pyIntHex l ≠ none := by
  have hstrip : pyStrip l = l := pyStrip_eq_self (fun c hc => pyWS_of_hexVal (h c hc))
  cases l with
  | nil => exact absurd rfl hne
  | cons c cs =>
    have hplus : c ≠ '+' := by
      intro e
      exact absurd (e ▸ (by decide : hexVal '+' = none)) (h c (by simp))
    have hminus : c ≠ '-' := by
      intro e
      exact absurd (e ▸ (by decide : hexVal '-' = none)) (h c (by simp))
    have hnat : hexNat (c :: cs) ≠ none := hexNatVal_ne_none h 0
    unfold pyIntHex
    simp only [hstrip]
    rw [if_neg hplus, if_neg hminus]
    rcases hx : hexNat (c :: cs) with _ | v
    · exact absurd hx hnat
    · simp

lemma parseHexColor_short {s : String}
    (h : (s.toList.dropWhile (fun c => c = '#')).length ≤ 4) : parseHexColor s = none := by
  have h4 : pySlice2 (s.toList.dropWhile (fun c => c = '#')) 4 = [] := by
    unfold pySlice2
    rw [List.drop_eq_nil_of_le h]
    rfl
  simp only [parseHexColor, h4]
  have : pyIntHex ([] : List Char) = none := rfl
  rw [this]
  rcases pyIntHex (pySlice2 (s.toList.dropWhile (fun c => c = '#')) 0) with _ | a <;>
    rcases pyIntHex (pySlice2 (s.toList.dropWhile (fun c => c = '#')) 2) with _ | b <;> rfl

lemma parseHexColor_hex5 {s : String}
    (h5 : 5 ≤ (s.toList.dropWhile (fun c => c = '#')).length)
    (hhex : ∀ c ∈ s.toList.dropWhile (fun c => c = '#'), hexVal c ≠ none) :
    parseHexColor s ≠ none := by
  set cs := s.toList.dropWhile (fun c => c = '#') with hcs
  have slice_ne : ∀ i, i ≤ 4 → pySlice2 cs i ≠ [] := by
    intro i hi he
    have hlen := congrArg List.length he
    simp [pySlice2, List.length_take, List.length_drop] at hlen
    omega
  have slice_mem : ∀ i, ∀ c ∈ pySlice2 cs i, c ∈ cs := by
    intro i c hc
    exact (List.drop_subset i cs) ((List.take_subset 2 (cs.drop i)) hc)
  have p0 := pyIntHex_hex_ne_none (slice_ne 0 (by omega))
    (fun c hc => hhex c (slice_mem 0 c hc))
  have p2 := pyIntHex_hex_ne_none (slice_ne 2 (by omega))
    (fun c hc => hhex c (slice_mem 2 c hc))
  have p4 := pyIntHex_hex_ne_none (slice_ne 4 (by omega))
    (fun c hc => hhex c (slice_mem 4 c hc))
  simp only [parseHexColor]
  rcases h0 : pyIntHex (pySlice2 cs 0) with _ | a
  · exact absurd h0 p0
  rcases h2 : pyIntHex (pySlice2 cs 2) with _ | b
  · exact absurd h2 p2
  rcases h4 : pyIntHex (pySlice2 cs 4) with _ | c
  · exact absurd h4 p4
  simp

/-- C2 (corrected): the hex conversion accepts `#FFFFFF` and `#000000`
as claimed and rejects `GGGGGG`, and failure yields no partial result
(`none` carries no components); but the remainder after stripping `#`
is not required to be exactly 6 hex digits: the three two-character
slices `[0:2]`, `[2:4]`, `[4:6]` are parsed, so any remainder of at
least 5 hex digits parses (a 5-digit one with a one-character blue
slice), while a remainder of at most 4 characters always fails because
its `[4:6]` slice is empty. -/
theorem color_parse_spec :
    parseHexColor "#FFFFFF" = some (255, 255, 255)
    ∧ parseHexColor "#000000" = some (0, 0, 0)
    ∧ parseHexColor "GGGGGG" = none
    ∧ parseHexColor "FFFFF" = some (255, 255, 15)
    ∧ (∀ s : String, (s.toList.dropWhile (fun c => c = '#')).length ≤ 4 →
        parseHexColor s = none)
    ∧ (∀ s : String, 5 ≤ (s.toList.dropWhile (fun c => c = '#')).length →
        (∀ c ∈ s.toList.dropWhile (fun c => c = '#'), hexVal c ≠ none) →
        parseHexColor s ≠ none) :=
  ⟨rfl, rfl, rfl, rfl, fun _ h => parseHexColor_short h,
    fun _ h5 hhex => parseHexColor_hex5 h5 hhex⟩

/-- C2 counterexample to the claim as stated: the 5-hex-digit string
`FFFFF` does not fail; it parses to `(255, 255, 15)`. -/
theorem color_parse_five_digit_counterexample :
    parseHexColor "FFFFF" = some (255, 255, 15) := rfl

/-- C2 witness: the universally quantified parts of `color_parse_spec`
at concrete inputs. -/
theorem color_parse_spec_witness :
    parseHexColor "ABC" = none ∧ parseHexColor "12345" ≠ none :=
  ⟨color_parse_spec.2.2.2.2.1 "ABC" (by decide),
    color_parse_spec.2.2.2.2.2 "12345" (by decide) (by decide)⟩

/-! ### Thumbnail normalisation -/

lemma thumbDims_le (w h : Nat) (hw : 0 < w) (hh : 0 < h) :
    (thumbDims w h).1 ≤ thumbnail_size ∧ (thumbDims w h).2 ≤ thumbnail_size := by
  unfold thumbDims
  by_cases hlt : h < w
  · refine ⟨by simp [hlt], ?_⟩
    simp only [hlt, if_pos]
    calc h * thumbnail_size / w ≤ w * thumbnail_size / w :=
          Nat.div_le_div_right (Nat.mul_le_mul_right _ (Nat.le_of_lt hlt))
      _ = thumbnail_size := Nat.mul_div_cancel_left _ hw
  · refine ⟨?_, by simp [hlt]⟩
    simp only [hlt, if_neg, if_false]
    calc w * thumbnail_size / h ≤ h * thumbnail_size / h :=
          Nat.div_le_div_right (Nat.mul_le_mul_right _ (Nat.le_of_not_lt hlt))
      _ = thumbnail_size := Nat.mul_div_cancel_left _ hh

/-- C3 (confirmed): for positive source dimensions the scale puts the
longer edge at exactly 256 and the shorter scaled edge at most 256, so
the crop branch of lines 166-170 never runs and the scaled image is
centre-pasted on the 256x256 fill-colour canvas (the output buffer is
the 256x256 `Image.new` of line 162 by construction); a 512x256 source
scales to 256x128 and a 100x400 source to 64x256, both padded; a
256x256 source is geometrically unchanged (resize target equals the
source size, paste offset (0,0)). -/
theorem thumbnail_normalizer_spec (src : String) (fill : RGB) (w h : Nat)
    (hw : 0 < w) (hh : 0 < h) :
    (h < w → (thumbDims w h).1 = thumbnail_size)
    ∧ (¬ h < w → (thumbDims w h).2 = thumbnail_size)
    ∧ (thumbDims w h).1 ≤ thumbnail_size
    ∧ (thumbDims w h).2 ≤ thumbnail_size
    ∧ (makeThumb src fill w h).cropped = false
    ∧ (makeThumb src fill w h).newW = (thumbDims w h).1
    ∧ (makeThumb src fill w h).newH = (thumbDims w h).2
    ∧ (makeThumb src fill w h).pasteX = (thumbnail_size - (thumbDims w h).1) / 2
    ∧ (makeThumb src fill w h).pasteY = (thumbnail_size - (thumbDims w h).2) / 2
    ∧ thumbDims 512 256 = (256, 128)
    ∧ thumbDims 100 400 = (64, 256)
    ∧ makeThumb src fill 256 256 =
        { src := src, newW := 256, newH := 256, pasteX := 0, pasteY := 0,
          cropped := false, fill := fill } := by
  obtain ⟨h1, h2⟩ := thumbDims_le w h hw hh
  have hpad : ¬ (thumbnail_size < (thumbDims w h).1 ∨ thumbnail_size < (thumbDims w h).2) := by
    push_neg
    exact ⟨h1, h2⟩
  have hmk : makeThumb src fill w h =
      { src := src, newW := (thumbDims w h).1, newH := (thumbDims w h).2,
        pasteX := (thumbnail_size - (thumbDims w h).1) / 2,
        pasteY := (thumbnail_size - (thumbDims w h).2) / 2,
        cropped := false, fill := fill } := by
    unfold makeThumb
    rw [if_neg hpad]
  refine ⟨?_, ?_, h1, h2, ?_, ?_, ?_, ?_, ?_, rfl, rfl, rfl⟩
  · intro hlt; simp [thumbDims, hlt]
  · intro hlt; simp [thumbDims, hlt]
  · rw [hmk]
  · rw [hmk]
  · rw [hmk]
  · rw [hmk]
  · rw [hmk]

/-- C3 witness: the theorem applied at the 512x256 and 256x256 examples. -/
theorem thumbnail_normalizer_spec_witness :
    (makeThumb "p" (0, 0, 0) 512 256).cropped = false
    ∧ thumbDims 512 256 = (256, 128)
    ∧ makeThumb "p" (0, 0, 0) 256 256 =
        { src := "p", newW := 256, newH := 256, pasteX := 0, pasteY := 0,
          cropped := false, fill := (0, 0, 0) } := by
  have h := thumbnail_normalizer_spec "p" (0, 0, 0) 512 256 (by decide) (by decide)
  exact ⟨h.2.2.2.2.1, h.2.2.2.2.2.2.2.2.2.1, h.2.2.2.2.2.2.2.2.2.2.2⟩

/-! ### Canvas height and stats text -/

/-- C5 (confirmed): with zero discovered images the height is the fixed
zero-item formula of lines 72-77 (stats line, two dividers and footer,
separated by single spacing units, no grid body) and the stats text is
the zero branch of line 108. -/
theorem zero_item_layout (include_subfolders : Bool) (images_per_row : Nat)
    (image_files : List (List ImageItem)) (h : total_images image_files = 0) :
    output_height include_subfolders images_per_row image_files =
      grid_spacing + stats_height + grid_spacing + line_thickness + grid_spacing +
        grid_spacing + line_thickness + footer_height + grid_spacing
    ∧ statsText (total_images image_files) = "Not found any image" := by
  constructor
  · unfold output_height
    rw [if_pos h]
  · rw [h]
    rfl

/-- C5 witness: an existing directory whose single flat section is
empty. -/
theorem zero_item_layout_witness :
    output_height false 5 [[]] = 324
    ∧ statsText (total_images [[]]) = "Not found any image" := by
  have h := zero_item_layout false 5 [[]] rfl
  exact ⟨h.1.trans rfl, h.2⟩

/-- C6 (confirmed): the stats header is "Found 1 image" for exactly one
image and "Found N images" (decimal `Nat` numeral via `toString`) for
every N at least 2 (source lines 107-112). -/
theorem stats_text_spec (n : Nat) :
    statsText 1 = "Found 1 image"
    ∧ (2 ≤ n → statsText n = "Found " ++ toString n ++ " images") := by
  constructor
  · rfl
  · intro h2
    unfold statsText
    rw [if_neg (by omega), if_neg (by omega)]

/-- C6 witness: the plural branch at N = 7. -/
theorem stats_text_spec_witness :
    statsText 1 = "Found 1 image" ∧ statsText 7 = "Found 7 images" :=
  ⟨(stats_text_spec 7).1, ((stats_text_spec 7).2 (by omega)).trans rfl⟩

/-! ### Text wrapping -/

lemma wrap_fold (widthOf : String → Nat) (maxWidth : Nat) :
    ∀ (cs : List Char) (pre : List Char),
      (∀ n : Nat, widthOf ⟨pre ++ cs.take n⟩ ≤ maxWidth) →
      cs.foldl (wrapStep widthOf maxWidth) ([], ⟨pre⟩) = ([], ⟨pre ++ cs⟩) := by
  intro cs
  induction cs with
  | nil => intro pre _; simp
  | cons c cs ih =>
    intro pre h
    have hstep : wrapStep widthOf maxWidth ([], ⟨pre⟩) c = ([], ⟨pre ++ [c]⟩) := by
      unfold wrapStep
      have hw : widthOf ((⟨pre⟩ : String).push c) ≤ maxWidth := by
        have := h 1
        simpa using this
      simp only [hw, if_pos]
      rfl
    rw [List.foldl_cons, hstep]
    have h' : ∀ n : Nat, widthOf ⟨(pre ++ [c]) ++ cs.take n⟩ ≤ maxWidth := by
      intro n
      have := h (n + 1)
      simpa [List.append_assoc] using this
    rw [ih (pre ++ [c]) h']
    simp

/-- C4 (corrected): a text all of whose measured prefixes fit within
the maximum width wraps to exactly one unmodified line, provided the
text is non-empty (the empty text wraps to zero lines, not one, because
the loop keeps the final line only when it is non-empty); and whenever
the greedy wrap produces more than 2 lines, the drawn caption is
exactly the first two lines with the second line dot-stripped and given
a single trailing ellipsis (source lines 193-199). -/
theorem wrap_text_spec (widthOf : String → Nat) (text : String) (maxWidth : Nat) :
    (text ≠ "" → (∀ n : Nat, widthOf ⟨text.toList.take n⟩ ≤ maxWidth) →
      wrap_text widthOf text maxWidth = [text])
    ∧ (∀ l1 l2 l3 rest, wrap_text widthOf text maxWidth = l1 :: l2 :: l3 :: rest →
        truncCaption (wrap_text widthOf text maxWidth) = [l1, pyRstripDots l2 ++ "..."]) := by
  constructor
  · intro hne h
    unfold wrap_text
    have hfold : text.toList.foldl (wrapStep widthOf maxWidth) ([], "") = ([], ⟨text.toList⟩) := by
      have := wrap_fold widthOf maxWidth text.toList [] (by simpa using h)
      simpa using this
    rw [hfold]
    have : (⟨text.toList⟩ : String) = text := rfl
    rw [this, if_neg hne]
    rfl
  · intro l1 l2 l3 rest hw
    rw [hw]
    rfl

/-- C4 counterexample to the claim as stated: the empty display text
(whose measured width 0 never exceeds the maximum) wraps to zero lines,
not to one line equal to the input. -/
theorem wrap_text_empty_counterexample :
    (fun s : String => s.length) "" ≤ 10
    ∧ wrap_text (fun s : String => s.length) "" 10 = []
    ∧ wrap_text (fun s : String => s.length) "" 10 ≠ [""] :=
  ⟨by decide, rfl, by decide⟩

/-- C4 witness: a short text measured by character count wraps to one
line; a three-line wrap is truncated to two lines with an ellipsis. -/
theorem wrap_text_spec_witness :
    wrap_text (fun s : String => s.length) "ab" 5 = ["ab"]
    ∧ truncCaption (wrap_text (fun s : String => s.length) "abc" 1) = ["a", "b..."] := by
  constructor
  · refine (wrap_text_spec (fun s : String => s.length) "ab" 5).1 (by decide) ?_
    intro n
    show (("ab".toList.take n)).length ≤ 5
    have h1 := List.length_take n "ab".toList
    have h2 : "ab".toList.length = 2 := rfl
    omega
  · exact (wrap_text_spec (fun s : String => s.length) "abc" 1).2 "a" "b" "c" [] (by decide)

/-! ### Recursive discovery -/

lemma walkSections_cons (e : String × List String) (w : List (String × List String)) :
    walkSections (e :: w) =
      if (dirSection e).isEmpty then walkSections w
      else dirSection e :: walkSections w := by
  unfold walkSections
  rw [List.filterMap_cons]
  by_cases he : (dirSection e).isEmpty
  · simp [he]
  · simp [he]

/-- C7 (confirmed): over the top-down `os.walk` snapshot, recursive
discovery yields only non-empty sections; it equals the per-directory
eligible-file sections of the traversal with the empty ones dropped
(one section per visited directory with at least one eligible file, in
traversal order); and the precomputed total (line 58) is the sum of the
per-directory eligible counts, so empty directories contribute
nothing. -/
theorem recursive_discovery_spec (w : List (String × List String)) :
    (∀ sec ∈ walkSections w, sec ≠ [])
    ∧ walkSections w = (w.map dirSection).filter (fun sec => !sec.isEmpty)
    ∧ total_images (walkSections w) =
        (w.map (fun e => (e.2.filter isSupportedName).length)).sum := by
  refine ⟨?_, ?_, ?_⟩
  · induction w with
    | nil => intro sec h; simp [walkSections] at h
    | cons e w ih =>
      intro sec hsec
      rw [walkSections_cons] at hsec
      by_cases he : (dirSection e).isEmpty
      · rw [if_pos he] at hsec
        exact ih sec hsec
      · rw [if_neg he] at hsec
        rcases List.mem_cons.mp hsec with h1 | h1
        · subst h1
          simpa [List.isEmpty_iff] using he
        · exact ih sec h1
  · induction w with
    | nil => rfl
    | cons e w ih =>
      rw [walkSections_cons, List.map_cons, List.filter_cons]
      by_cases he : (dirSection e).isEmpty
      · simp [he, ih]
      · simp [he, ih]
  · induction w with
    | nil => rfl
    | cons e w ih =>
      rw [walkSections_cons, List.map_cons, List.sum_cons]
      have hlen : (dirSection e).length = (e.2.filter isSupportedName).length := by
        unfold dirSection
        rw [List.length_map]
      by_cases he : (dirSection e).isEmpty
      · have h0 : (e.2.filter isSupportedName).length = 0 := by
          rw [← hlen]
          simpa [List.isEmpty_iff, List.length_eq_zero] using he
        rw [if_pos he, ih, h0, Nat.zero_add]
      · rw [if_neg he]
        show total_images (dirSection e :: walkSections w) = _
        unfold total_images
        rw [List.map_cons, List.sum_cons, hlen]
        rw [show (List.map List.length (walkSections w)).sum = total_images (walkSections w) from rfl, ih]

/-! ### The drawing loop under decode failures -/

/-- Number of items of a list that decode successfully. -/
def countSucc (decode : String → Option (Nat × Nat)) (items : List ImageItem) : Nat :=
  (items.filter (fun it => (decode (pyJoin it.1 it.2)).isSome)).length

/-- The ops the inner loop emits for one section starting at running
index `idx`, with `n` the section length used by the modulo of source
lines 175-176: failed decodes emit nothing and do not advance the
index. -/
def sectionOps (decode : String → Option (Nat × Nat)) (widthOf : String → Nat)
    (include_subfolders : Bool) (folder_path : String) (txt_color : RGB)
    (images_per_row n y : Nat) : Nat → List ImageItem → List DrawOp
  | _, [] => []
  | idx, it :: rest =>
    match decode (pyJoin it.1 it.2) with
    | none => sectionOps decode widthOf include_subfolders folder_path txt_color
        images_per_row n y idx rest
    | some wh =>
      itemOps txt_color widthOf (displayName include_subfolders folder_path it.1 it.2)
        (grid_spacing + ((idx % n) % images_per_row) * (thumbnail_size + grid_spacing))
        (y + ((idx % n) / images_per_row) * (thumbnail_size + text_height + grid_spacing))
        (makeThumb (pyJoin it.1 it.2) txt_color wh.1 wh.2)
      ++ sectionOps decode widthOf include_subfolders folder_path txt_color
          images_per_row n y (idx + 1) rest

/-- Claim-side compaction spec: the k-th successfully decoded item of
the list (k counting successes only, starting from `idx`) is pasted at
the grid cell of index k — row `k / images_per_row`, column
`k % images_per_row` — with failed items occupying no cell. -/
def compactPositions (decode : String → Option (Nat × Nat))
    (images_per_row y : Nat) : Nat → List ImageItem → List (Nat × Nat × String)
  | _, [] => []
  | idx, it :: rest =>
    match decode (pyJoin it.1 it.2) with
    | none => compactPositions decode images_per_row y idx rest
    | some _ =>
      (grid_spacing + (idx % images_per_row) * (thumbnail_size + grid_spacing),
       y + (idx / images_per_row) * (thumbnail_size + text_height + grid_spacing),
       pyJoin it.1 it.2) :: compactPositions decode images_per_row y (idx + 1) rest

lemma makeThumb_src (src : String) (fill : RGB) (w h : Nat) :
    (makeThumb src fill w h).src = src := by
  simp only [makeThumb]
  split <;> rfl

lemma foldl_processItem_spec (decode : String → Option (Nat × Nat))
    (widthOf : String → Nat) (include_subfolders : Bool) (folder_path : String)
    (txt_color : RGB) (images_per_row n : Nat) :
    ∀ (items : List ImageItem) (st : LoopState),
      items.foldl
          (processItem decode widthOf include_subfolders folder_path txt_color images_per_row n)
          st =
        { current_y := st.current_y,
          image_idx := st.image_idx + countSucc decode items,
          ops := st.ops ++ sectionOps decode widthOf include_subfolders folder_path txt_color
            images_per_row n st.current_y st.image_idx items } := by
  intro items
  induction items with
  | nil =>
    intro st
    simp [countSucc, sectionOps]
  | cons it rest ih =>
    intro st
    rw [List.foldl_cons]
    rcases hd : decode (pyJoin it.1 it.2) with _ | wh
    · have hstep : processItem decode widthOf include_subfolders folder_path txt_color
          images_per_row n st it = st := by
        simp only [processItem]
        rw [hd]
      rw [hstep, ih st]
      have hcount : countSucc decode (it :: rest) = countSucc decode rest := by
        unfold countSucc
        rw [List.filter_cons]
        simp [hd]
      have hops : sectionOps decode widthOf include_subfolders folder_path txt_color
          images_per_row n st.current_y st.image_idx (it :: rest) =
          sectionOps decode widthOf include_subfolders folder_path txt_color
            images_per_row n st.current_y st.image_idx rest := by
        simp only [sectionOps, hd]
      rw [hcount, hops]
    · have hstep : processItem decode widthOf include_subfolders folder_path txt_color
          images_per_row n st it =
          { st with
            ops := st.ops ++ itemOps txt_color widthOf
              (displayName include_subfolders folder_path it.1 it.2)
              (grid_spacing + ((st.image_idx % n) % images_per_row) * (thumbnail_size + grid_spacing))
              (st.current_y + ((st.image_idx % n) / images_per_row) * (thumbnail_size + text_height + grid_spacing))
              (makeThumb (pyJoin it.1 it.2) txt_color wh.1 wh.2),
            image_idx := st.image_idx + 1 } := by
        simp only [processItem]
        rw [hd]
      rw [hstep, ih]
      have hcount : countSucc decode (it :: rest) = countSucc decode rest + 1 := by
        unfold countSucc
        rw [List.filter_cons]
        simp [hd]
      have hops : sectionOps decode widthOf include_subfolders folder_path txt_color
          images_per_row n st.current_y st.image_idx (it :: rest) =
          itemOps txt_color widthOf (displayName include_subfolders folder_path it.1 it.2)
            (grid_spacing + ((st.image_idx % n) % images_per_row) * (thumbnail_size + grid_spacing))
            (st.current_y + ((st.image_idx % n) / images_per_row) * (thumbnail_size + text_height + grid_spacing))
            (makeThumb (pyJoin it.1 it.2) txt_color wh.1 wh.2)
          ++ sectionOps decode widthOf include_subfolders folder_path txt_color
              images_per_row n st.current_y (st.image_idx + 1) rest := by
        simp only [sectionOps, hd]
      rw [hcount, hops]
      simp [List.append_assoc]
      omega

lemma pastePositions_append (l1 l2 : List DrawOp) :
    pastePositions (l1 ++ l2) = pastePositions l1 ++ pastePositions l2 :=
  List.filterMap_append _ _ _

lemma pastePositions_text_cons (p : Nat × Nat) (s : String) (c : RGB) (fs : Nat)
    (l : List DrawOp) : pastePositions (DrawOp.text p s c fs :: l) = pastePositions l := by
  unfold pastePositions
  rw [List.filterMap_cons]

lemma pastePositions_rect_cons (a b : Nat × Nat) (c : RGB) (l : List DrawOp) :
    pastePositions (DrawOp.rect a b c :: l) = pastePositions l := by
  unfold pastePositions
  rw [List.filterMap_cons]

lemma pastePositions_texts (l : List (Nat × String)) (f : Nat × String → Nat × Nat)
    (c : RGB) (fs : Nat) :
    pastePositions (l.map (fun p => DrawOp.text (f p) p.2 c fs)) = [] := by
  induction l with
  | nil => rfl
  | cons a l ih =>
    simp only [List.map_cons]
    unfold pastePositions at ih ⊢
    rw [List.filterMap_cons]
    simp [ih]

lemma pastePositions_itemOps (tc : RGB) (widthOf : String → Nat) (dn : String)
    (x y : Nat) (th : Thumb) :
    pastePositions (itemOps tc widthOf dn x y th) = [(x, y, th.src)] := by
  have htexts := pastePositions_texts
    ((truncCaption (wrap_text widthOf dn (thumbnail_size - 10))).take 2).enum
    (fun p => (x + 5, y + thumbnail_size + 5 + p.1 * 25)) tc 20
  simp only [itemOps]
  unfold pastePositions at htexts ⊢
  rw [List.filterMap_cons]
  simp [htexts]

lemma countSucc_cons_none {decode : String → Option (Nat × Nat)} {it : ImageItem}
    (rest : List ImageItem) (hd : decode (pyJoin it.1 it.2) = none) :
    countSucc decode (it :: rest) = countSucc decode rest := by
  unfold countSucc
  rw [List.filter_cons]
  simp [hd]

lemma countSucc_cons_some {decode : String → Option (Nat × Nat)} {it : ImageItem}
    {wh : Nat × Nat} (rest : List ImageItem) (hd : decode (pyJoin it.1 it.2) = some wh) :
    countSucc decode (it :: rest) = countSucc decode rest + 1 := by
  unfold countSucc
  rw [List.filter_cons]
  simp [hd]

lemma pastePositions_sectionOps (decode : String → Option (Nat × Nat))
    (widthOf : String → Nat) (include_subfolders : Bool) (folder_path : String)
    (txt_color : RGB) (images_per_row n y : Nat) :
    ∀ (items : List ImageItem) (idx : Nat), idx + countSucc decode items ≤ n →
      pastePositions (sectionOps decode widthOf include_subfolders folder_path txt_color
          images_per_row n y idx items) =
        compactPositions decode images_per_row y idx items := by
  intro items
  induction items with
  | nil => intro idx _; rfl
  | cons it rest ih =>
    intro idx h
    rcases hd : decode (pyJoin it.1 it.2) with _ | wh
    · rw [countSucc_cons_none rest hd] at h
      simp only [sectionOps, compactPositions, hd]
      exact ih idx h
    · rw [countSucc_cons_some rest hd] at h
      have hidx : idx < n := by omega
      simp only [sectionOps, compactPositions, hd]
      rw [pastePositions_append, pastePositions_itemOps, makeThumb_src,
        Nat.mod_eq_of_lt hidx, ih (idx + 1) (by omega)]
      rfl

/-- C10 (confirmed, flat mode): a decode failure is caught (the render
still returns a canvas), the running `image_idx` does not advance, and
each successfully decoded item is pasted at the grid cell indexed by
the number of prior successes (`compactPositions`), so later successes
shift into the cells failed items would have filled, with no gap; while
the canvas height and the stats header both come from the discovered
total (failures included), leaving unused space and an overstated
count. -/
theorem flat_decode_failure_compaction (env : Env) (fp : String) (ipr : Nat)
    (bg tc t : String) (bgc tcc : RGB)
    (hD : env.isDir = true) (hF : env.fontExists = true) (hL : env.fontLoadOk = true)
    (hbg : parseHexColor bg = some bgc) (htc : parseHexColor tc = some tcc) :
    (generate_preview env fp ipr false bg tc t).map Canvas.height
      = .ok (output_height false ipr [flatSection fp env.listing])
    ∧ (generate_preview env fp ipr false bg tc t).map (fun c => c.ops.head?)
      = .ok (some (DrawOp.text (grid_spacing, grid_spacing)
          (statsText (total_images [flatSection fp env.listing])) tcc 24))
    ∧ (generate_preview env fp ipr false bg tc t).map (fun c => pastePositions c.ops)
      = .ok (compactPositions env.decode ipr
          (grid_spacing + stats_height + grid_spacing + line_thickness + grid_spacing)
          0 (flatSection fp env.listing)) := by
  simp only [generate_preview, hD, hF, hL, hbg, htc, Bool.true_eq_false, Bool.false_eq_true,
    if_false]
  by_cases hti : total_images [flatSection fp env.listing] = 0
  · have hempty : flatSection fp env.listing = [] := by
      have hlen : (flatSection fp env.listing).length = 0 := by
        simpa [total_images] using hti
      exact List.eq_nil_of_length_eq_zero hlen
    simp only [hti, if_true, hempty]
    refine ⟨rfl, rfl, rfl⟩
  · rw [if_neg hti]
    have hsec : processSection env.decode env.textWidth false fp tcc ipr
        { current_y := grid_spacing + stats_height + grid_spacing + line_thickness + grid_spacing,
          image_idx := 0, ops := [] } (flatSection fp env.listing) =
        (flatSection fp env.listing).foldl
          (processItem env.decode env.textWidth false fp tcc ipr (flatSection fp env.listing).length)
          { current_y := grid_spacing + stats_height + grid_spacing + line_thickness + grid_spacing,
            image_idx := 0, ops := [] } := by
      simp only [processSection, Bool.false_eq_true, false_and, if_false]
    rw [List.foldl_cons, List.foldl_nil, hsec,
      foldl_processItem_spec env.decode env.textWidth false fp tcc ipr
        (flatSection fp env.listing).length (flatSection fp env.listing)]
    refine ⟨rfl, rfl, ?_⟩
    simp only [Except.map, List.nil_append]
    rw [pastePositions_append, pastePositions_append,
      pastePositions_text_cons, pastePositions_rect_cons,
      pastePositions_rect_cons, pastePositions_text_cons]
    have hbound : 0 + countSucc env.decode (flatSection fp env.listing) ≤
        (flatSection fp env.listing).length := by
      have := List.length_filter_le
        (fun it : ImageItem => (env.decode (pyJoin it.1 it.2)).isSome)
        (flatSection fp env.listing)
      simpa [countSucc] using this
    rw [pastePositions_sectionOps env.decode env.textWidth false fp tcc ipr
      (flatSection fp env.listing).length
      (grid_spacing + stats_height + grid_spacing + line_thickness + grid_spacing)
      (flatSection fp env.listing) 0 hbound]
    rw [show pastePositions ([] : List DrawOp) = [] from rfl]
    simp

/-- Concrete snapshot for the decode-failure witness: three eligible
files, of which `b.png` fails to decode. -/
def envW : Env :=
  { isDir := true, fontExists := true, fontLoadOk := true, fontPath := "f",
    listing := [("a.png", true), ("b.png", true), ("c.png", true)],
    walkOutput := [],
    decode := fun p => if p = "d/b.png" then none else some (256, 256),
    textWidth := fun s => 10 * s.length }

/-- C10 witness: with `b.png` failing, the canvas keeps the height for
3 items (688px) and the two successes are pasted compacted at cells 0
and 1 of the first row. -/
theorem flat_decode_failure_compaction_witness :
    (generate_preview envW "d" 5 false "#FFFFFF" "#000000" "T").map Canvas.height = .ok 688
    ∧ (generate_preview envW "d" 5 false "#FFFFFF" "#000000" "T").map (fun c => pastePositions c.ops)
        = .ok [(48, 186, "d/a.png"), (352, 186, "d/c.png")] := by
  have h := flat_decode_failure_compaction envW "d" 5 "#FFFFFF" "#000000" "T"
    (255, 255, 255) (0, 0, 0) rfl rfl rfl rfl rfl
  exact ⟨h.1.trans rfl, h.2.2.trans rfl⟩

/-- Replace a text op's string (used to state that two renders differ
only in the timestamp string of the footer op). -/
def timestampRewrite (t : String) : DrawOp → DrawOp
  | DrawOp.text pos _ color fs => DrawOp.text pos t color fs
  | op => op

/-- The string drawn by a text op. -/
def opTextStr : DrawOp → Option String
  | DrawOp.text _ s _ _ => some s
  | _ => none

lemma dropLast_shape (X : List DrawOp) (a b c d : DrawOp) :
    ([a, b] ++ X ++ [c, d]).dropLast = [a, b] ++ (X ++ [c]) := by
  rw [show [a, b] ++ X ++ [c, d] = ([a, b] ++ (X ++ [c])) ++ [d] by simp]
  exact List.dropLast_concat

lemma getLast_shape (X : List DrawOp) (a b c d : DrawOp) :
    ([a, b] ++ X ++ [c, d]).getLast? = some d := by
  rw [show [a, b] ++ X ++ [c, d] = ([a, b] ++ (X ++ [c])) ++ [d] by simp]
  exact List.getLast?_concat _

/-- C9 (confirmed): with the clock reading passed in as the captured
timestamp string, two renders of the same environment and inputs agree
on every drawing op except the last, agree on canvas dimensions and
background, and the last op of each is a text op whose string is
exactly that render's timestamp — so identical inputs and snapshot
give canvases identical but for the footer timestamp text, which is
drawn once. -/
theorem render_deterministic_mod_timestamp (env : Env) (fp : String) (ipr : Nat)
    (incl : Bool) (bg tc t1 t2 : String) :
    (generate_preview env fp ipr incl bg tc t1).map (fun c => c.ops.dropLast)
      = (generate_preview env fp ipr incl bg tc t2).map (fun c => c.ops.dropLast)
    ∧ (generate_preview env fp ipr incl bg tc t1).map (fun c => (c.width, c.height, c.background))
      = (generate_preview env fp ipr incl bg tc t2).map (fun c => (c.width, c.height, c.background))
    ∧ (generate_preview env fp ipr incl bg tc t2).map (fun c => c.ops.getLast?)
      = (generate_preview env fp ipr incl bg tc t1).map (fun c => (c.ops.getLast?).map (timestampRewrite t2))
    ∧ (generate_preview env fp ipr incl bg tc t1).map (fun c => c.ops.getLast?.bind opTextStr)
      = (generate_preview env fp ipr incl bg tc t1).map (fun _ => some t1) := by
  by_cases hD : env.isDir = false
  · simp [generate_preview, hD, Except.map]
  by_cases hF : env.fontExists = false
  · simp [generate_preview, hD, hF, Except.map]
  rcases hbg : parseHexColor bg with _ | bgc
  · rcases htc : parseHexColor tc with _ | tcc <;>
      simp [generate_preview, hD, hF, hbg, htc, Except.map]
  rcases htc : parseHexColor tc with _ | tcc
  · simp [generate_preview, hD, hF, hbg, htc, Except.map]
  by_cases hL : env.fontLoadOk = false
  · simp [generate_preview, hD, hF, hbg, htc, hL, Except.map]
  by_cases hti : total_images
      (if incl = true then walkSections env.walkOutput else [flatSection fp env.listing]) = 0
  · simp [generate_preview, hD, hF, hbg, htc, hL, hti, Except.map, timestampRewrite, opTextStr]
  · simp only [generate_preview, hD, hF, hbg, htc, hL, Bool.true_eq_false, Bool.false_eq_true,
      if_false, if_neg hti, Except.map, dropLast_shape, getLast_shape]
    refine ⟨trivial, trivial, ?_, ?_⟩
    · simp [Option.map, timestampRewrite]
    · simp [Option.bind, opTextStr]

/-- Concrete recursive snapshot exhibiting the grid-placement defect:
the root holds 3 eligible images and its subdirectory 5, every file
decodes as a 256x256 image. -/
def envC1 : Env :=
  { isDir := true, fontExists := true, fontLoadOk := true, fontPath := "f",
    listing := [],
    walkOutput := [("r", ["a.png", "b.png", "c.png"]),
                   ("r/s", ["d.png", "e.png", "f.png", "g.png", "h.png"])],
    decode := fun _ => some (256, 256),
    textWidth := fun s => 10 * s.length }

/-- C1 (code bug): the grid position of source lines 175-176 uses the
global running `image_idx` reduced modulo the section length, not a
per-section index.  At this input the first item of the second section
(global index 3, section length 5) is pasted at x = 960 (column 3),
not at x = `grid_spacing` = 48 (column 0) as the per-section row/col
formula of the spec requires; the claim's own flat-mode example is
unaffected because a single section starts at global index 0. -/
theorem section_rotation_bug_eval :
    (generate_preview envC1 "r" 5 true "#FFFFFF" "#000000" "T").map
        (fun c => (pastePositions c.ops).get? 3)
      = .ok (some (960, 726, "r/s/d.png"))
    ∧ (generate_preview envC1 "r" 5 true "#FFFFFF" "#000000" "T").map
        (fun c => (pastePositions c.ops).get? 3)
      ≠ .ok (some (grid_spacing, 726, "r/s/d.png")) := by
  have h1 : (generate_preview envC1 "r" 5 true "#FFFFFF" "#000000" "T").map
      (fun c => (pastePositions c.ops).get? 3) = .ok (some (960, 726, "r/s/d.png")) := rfl
  refine ⟨h1, ?_⟩
  intro h
  rw [h1] at h
  simp [grid_spacing] at h

/-- C8 (corrected): a missing root directory fails with the
RootNotFound message, which contains the offending path, and a
malformed colour fails with the fixed InvalidColorFormat message; both
are `Except.error`s produced before any canvas or drawing op exists,
so no partial output is returned.  Contrary to the claim, the colour
message does not include the offending value (see the
counterexample). -/
theorem c8_fatal_errors (env : Env) (fp : String) (ipr : Nat) (incl : Bool)
    (bg tc t : String) :
    (env.isDir = false →
      generate_preview env fp ipr incl bg tc t
          = .error ("The folder path '" ++ fp ++ "' does not exist or is not a directory!")
        ∧ fp.toList <:+: ("The folder path '" ++ fp ++ "' does not exist or is not a directory!").toList)
    ∧ (env.isDir = true → env.fontExists = true →
        parseHexColor bg = none ∨ parseHexColor tc = none →
        generate_preview env fp ipr incl bg tc t
          = .error "Background color or text color must be a valid HEX value, e.g., #FFFFFF") := by
  constructor
  · intro hD
    constructor
    · simp [generate_preview, hD]
    · exact ⟨"The folder path '".toList,
        "' does not exist or is not a directory!".toList, by simp⟩
  · intro hD hF hcol
    rcases hbg : parseHexColor bg with _ | bgc <;> rcases htc : parseHexColor tc with _ | tcc <;>
      simp_all [generate_preview]

set_option maxRecDepth 8192 in
/-- C8 counterexample to the claim as stated: the colour-format error
message is a fixed string that does not contain the offending value
`GGGGGG` as a substring. -/
theorem c8_color_message_counterexample :
    generate_preview envW "d" 5 false "#FFFFFF" "GGGGGG" "T"
        = .error "Background color or text color must be a valid HEX value, e.g., #FFFFFF"
    ∧ ¬ ("GGGGGG".toList <:+:
          "Background color or text color must be a valid HEX value, e.g., #FFFFFF".toList) := by
  exact ⟨rfl, by decide⟩

/-- An environment whose root directory check fails. -/
def envBad : Env :=
  { isDir := false, fontExists := true, fontLoadOk := true, fontPath := "f",
    listing := [], walkOutput := [], decode := fun _ => none, textWidth := fun _ => 0 }

/-- C8 witness: both fatal paths at concrete inputs. -/
theorem c8_fatal_errors_witness :
    generate_preview envBad "missing" 5 false "#FFFFFF" "#000000" "T"
      = .error "The folder path 'missing' does not exist or is not a directory!"
    ∧ generate_preview envW "d" 5 false "GGGGGG" "#000000" "T"
      = .error "Background color or text color must be a valid HEX value, e.g., #FFFFFF" :=
  ⟨((c8_fatal_errors envBad "missing" 5 false "#FFFFFF" "#000000" "T").1 rfl).1,
    (c8_fatal_errors envW "d" 5 false "GGGGGG" "#000000" "T").2 rfl rfl (Or.inl rfl)⟩
